import Mathlib

/-!
Verification of `src/estimagic/visualization/sensitivity_plot.py`
(`moment_sensitivity_plot`), a shallow embedding of the pandas data
transformation performed by that function together with the file-saving
loop and the subplot-titling step.

A pandas `DataFrame` is embedded as a list of column labels, a list of
row-index labels and a row-major data matrix.  Cell values and labels are
`Val` (strings or integers).  Fallible pandas operations (`df["name"]` on
a missing column, `df.columns = xs` with a length mismatch, `.abs()` on a
non-numeric cell, indexing an empty list) return `Except Err`.
-/

namespace SensitivityPlot

/-- A pandas cell value or label: a string or an integer. -/
inductive Val where
  | str (s : String)
  | int (n : Int)
  deriving DecidableEq, Repr, Inhabited

/-- Errors the Python code can raise on the paths the claims mention. -/
inductive Err where
  /-- `KeyError`: column label absent from the frame. -/
  | keyError
  /-- `IndexError`: list index out of range (`sensitivity[0]` on `[]`). -/
  | indexError
  /-- `ValueError`: assigning a column list of mismatched length. -/
  | valueError
  /-- `TypeError`: `.abs()` on a non-numeric cell. -/
  | typeError
  deriving DecidableEq, Repr

/-- Embedding of a pandas `DataFrame`: column labels, row-index labels and
row-major data.  Well-formed frames are rectangular (`WF` below). -/
structure DataFrame where
  cols : List Val
  idx : List Val
  rows : List (List Val)
  deriving DecidableEq, Repr

instance : Inhabited DataFrame := ⟨⟨[], [], []⟩⟩

/-- Rectangularity: one index label per row, one column label per cell. -/
def WF (df : DataFrame) : Prop :=
  df.idx.length = df.rows.length ∧ ∀ r ∈ df.rows, r.length = df.cols.length

instance (df : DataFrame) : Decidable (WF df) := by
  unfold WF; infer_instance

/-- Left-to-right effectful map over a list, stopping at the first error —
the evaluation order of the Python loops being embedded. -/
def exceptMap (f : α → Except Err β) : List α → Except Err (List β)
  | [] => .ok []
  | a :: as =>
    match f a with
    | .error e => .error e
    | .ok b =>
      match exceptMap f as with
      | .error e => .error e
      | .ok bs => .ok (b :: bs)

/-- `df[label].to_list()` — the values of the column with the given label;
`KeyError` when the label is absent (line 21 of the source). -/
def getCol (df : DataFrame) (label : Val) : Except Err (List Val) :=
  match df.cols.findIdx? (· = label) with
  | none => .error .keyError
  | some j => .ok (df.rows.map (fun r => r.getD j (Val.int 0)))

/-- `abs` on one cell: `TypeError` on a string (pandas `.abs()` on object
data), absolute value on an integer. -/
def absVal : Val → Except Err Val
  | .str _ => .error .typeError
  | .int n => .ok (.int n.natAbs)

/-- `df.iloc[:, -n:] = df.iloc[:, -n:].abs()` (line 27): absolute value
applied to the last `n` columns of every row; earlier cells untouched.
Python's negative slice clamps at 0, matched by truncated subtraction. -/
def absLastN (n : Nat) (df : DataFrame) : Except Err DataFrame :=
  let keep := df.cols.length - n
  match exceptMap (fun r =>
      match exceptMap absVal (r.drop keep) with
      | .error e => .error e
      | .ok tail => .ok (r.take keep ++ tail)) df.rows with
  | .error e => .error e
  | .ok rows => .ok { df with rows := rows }

/-- `df.T`: rows become columns and columns become rows; row `j` of the
transpose is column `j` of the original. -/
def transposeDF (df : DataFrame) : DataFrame :=
  { cols := df.idx
    idx := df.cols
    rows := (List.range df.cols.length).map
      (fun j => df.rows.map (fun r => r.getD j (Val.int 0))) }

/-- `df[-n:]` on a frame: keep the last `n` rows (Python slice semantics,
clamping when `n` exceeds the row count). -/
def takeLastRows (n : Nat) (df : DataFrame) : DataFrame :=
  { cols := df.cols
    idx := df.idx.drop (df.idx.length - n)
    rows := df.rows.drop (df.rows.length - n) }

/-- `df.columns = names` (line 30): pandas raises `ValueError` when the
new label list's length differs from the column count. -/
def setColumns (df : DataFrame) (names : List Val) : Except Err DataFrame :=
  if names.length = df.cols.length then .ok { df with cols := names }
  else .error .valueError

/-- `df.reset_index(inplace=True)` (line 31): the row-index labels move
into a leading column labeled `"index"`; the index becomes the default
range index. -/
def resetIndex (df : DataFrame) : DataFrame :=
  { cols := .str "index" :: df.cols
    idx := (List.range df.rows.length).map (fun j => .int j)
    rows := (df.idx.zip df.rows).map (fun p => p.1 :: p.2) }

/-- Lines 29–31 of the source with the local variable `df` already holding
the abs-updated copy: `df = df.T[-n:]`, `df.columns = df_columns`,
`df.reset_index(inplace=True)`.  These statements only rebind/transform
the local and never write back into the caller's object. -/
def restOfBody (dfColumns : List Val) (n : Nat) (d : DataFrame) :
    Except Err DataFrame :=
  match setColumns (takeLastRows n (transposeDF d)) dfColumns with
  | .error e => .error e
  | .ok t => .ok (resetIndex t)

/-- The per-table data transformation of the loop body (lines 26–31):
deep copy (value semantics), abs on the last `n` columns, transpose, keep
the last `n` rows, relabel columns with the first table's `name` values,
reset the index. -/
def processTable (dfColumns : List Val) (n : Nat) (df : DataFrame) :
    Except Err DataFrame :=
  match absLastN n df with
  | .error e => .error e
  | .ok d => restOfBody dfColumns n d

/-- The function's argument: `pd.DataFrame or list of pd.DataFrame`. -/
inductive SensInput where
  | single (df : DataFrame)
  | many (dfs : List DataFrame)

/-- Lines 16–17: `if type(sensitivity) is not list: sensitivity = [sensitivity]`. -/
def normalize : SensInput → List DataFrame
  | .single df => [df]
  | .many dfs => dfs

/-- The loop of lines 24–76 restricted to its observable effects: per
table, the reshaped frame is computed (any pandas error aborts the run)
and one file `sensitivity_plot{i+1}.png` is saved.  Returns the loop's
outcome and the list of files written, in order. -/
def runLoop (dfColumns : List Val) (n : Nat) :
    List DataFrame → Nat → Except Err Unit × List String
  | [], _ => (.ok (), [])
  | df :: rest, i =>
    match processTable dfColumns n df with
    | .error e => (.error e, [])
    | .ok _ =>
      let file := "sensitivity_plot" ++ toString (i + 1) ++ ".png"
      let (res, files) := runLoop dfColumns n rest (i + 1)
      (res, file :: files)

/-- `moment_sensitivity_plot`: normalize the input, read the first
table's `name` column (IndexError on an empty list, KeyError when the
column is missing), run the loop, and return `"Figures saved."` together
with the files written. -/
def moment_sensitivity_plot (input : SensInput) :
    Except Err String × List String :=
  let s := normalize input
  let n := s.length
  match s with
  | [] => (.error .indexError, [])
  | t0 :: _ =>
    match getCol t0 (.str "name") with
    | .error e => (.error e, [])
    | .ok dfColumns =>
      match runLoop dfColumns n s 0 with
      | (.ok _, files) => (.ok "Figures saved.", files)
      | (.error e, files) => (.error e, files)

/-- The sequence of reshaped tables the run hands to the plotting grid,
one per input table (same transformation as `moment_sensitivity_plot`,
keeping the data instead of the file names). -/
def reshapedTables (input : SensInput) : Except Err (List DataFrame) :=
  let s := normalize input
  match s with
  | [] => .error .indexError
  | t0 :: _ =>
    match getCol t0 (.str "name") with
    | .error e => .error e
    | .ok dfColumns => exceptMap (processTable dfColumns s.length) s

/-- Line 59: the fixed, hardcoded subplot title list. -/
def titles : List String := ["intersection", "beta1", "beta2"]

/-- Lines 61–64: `for ax, title in zip(g.axes.flat, titles)` — the titles
actually assigned when the grid has `numAxes` subplots.  `zip` truncates
silently, so only `min numAxes 3` subplots receive a title. -/
def assignedTitles (numAxes : Nat) : List String :=
  ((List.range numAxes).zip titles).map Prod.snd

/-! ### Heap model for the defensive-copy (no-mutation) property

Python mutates objects through references.  To state that the caller's
tables are never mutated, the caller's tables live in a heap of
`DataFrame` objects at addresses `0..k-1`; `copy(deep=True)` allocates a
fresh object, and the in-place statement `df.iloc[:, -n:] = ...` writes
through the local reference `df` — which the embedding shows is the
fresh address, never a caller address. -/

/-- A heap of table objects, addressed by position. -/
structure Heap where
  objs : List DataFrame

/-- Dereference an address. -/
def heapRead (h : Heap) (r : Nat) : DataFrame :=
  h.objs.getD r default

/-- Allocate a fresh object; returns the new heap and the new address. -/
def heapAlloc (h : Heap) (d : DataFrame) : Heap × Nat :=
  (⟨h.objs ++ [d]⟩, h.objs.length)

/-- Overwrite the object at an address. -/
def heapWrite (h : Heap) (r : Nat) (d : DataFrame) : Heap :=
  ⟨h.objs.set r d⟩

/-- One loop iteration against the heap: `df = sensitivity[i].copy(deep=True)`
allocates, the abs assignment writes through `df`'s fresh address, the
remaining statements only transform the local value. -/
def bodyHeap (dfColumns : List Val) (n : Nat) (h : Heap) (i : Nat) :
    Heap × Except Err DataFrame :=
  let (h1, r) := heapAlloc h (heapRead h i)
  match absLastN n (heapRead h1 r) with
  | .error e => (h1, .error e)
  | .ok d =>
    let h2 := heapWrite h1 r d
    (h2, restOfBody dfColumns n (heapRead h2 r))

/-- The loop over table positions, threading the heap; aborts at the
first error as the Python loop would. -/
def runHeapLoop (dfColumns : List Val) (n : Nat) :
    List Nat → Heap → Heap × Except Err Unit
  | [], h => (h, .ok ())
  | i :: is, h =>
    match bodyHeap dfColumns n h i with
    | (h', .error e) => (h', .error e)
    | (h', .ok _) => runHeapLoop dfColumns n is h'

/-- The whole call against a heap holding the caller's tables at
addresses `0..tables.length-1`. -/
def momentSensitivityPlotHeap (tables : List DataFrame) :
    Heap × Except Err Unit :=
  let h : Heap := ⟨tables⟩
  match tables with
  | [] => (h, .error .indexError)
  | t0 :: _ =>
    match getCol t0 (.str "name") with
    | .error e => (h, .error e)
    | .ok dfColumns =>
      runHeapLoop dfColumns tables.length (List.range tables.length) h

/-- Cell at row `i`, column `j` (positional), with defaults off the edge. -/
def cell (df : DataFrame) (i j : Nat) : Val :=
  (df.rows.getD i []).getD j (.int 0)

/-! ### Concrete frames used as test inputs -/

/-- The spec's §8 scenario table: `name = [a, b, c]`, one trailing
measure column `[-1, 2, -3]`. -/
def exScenario : DataFrame :=
  ⟨[.str "name", .str "m"], [.int 0, .int 1, .int 2],
   [[.str "a", .int (-1)], [.str "b", .int 2], [.str "c", .int (-3)]]⟩

/-- The reshaped frame the code produces for `exScenario`. -/
def exScenarioReshaped : DataFrame :=
  ⟨[.str "index", .str "a", .str "b", .str "c"], [.int 0],
   [[.str "m", .int 1, .int 2, .int 3]]⟩

/-- `exScenario` after the abs step on its last column. -/
def exScenarioAbs : DataFrame :=
  ⟨[.str "name", .str "m"], [.int 0, .int 1, .int 2],
   [[.str "a", .int 1], [.str "b", .int 2], [.str "c", .int 3]]⟩

/-- First table of a two-table input: `name = [a, b]`, measures `m1, m2`. -/
def exFirst : DataFrame :=
  ⟨[.str "name", .str "m1", .str "m2"], [.int 0, .int 1],
   [[.str "a", .int 1, .int (-2)], [.str "b", .int 3, .int 4]]⟩

/-- Second table with a different `name` column: `name = [x, y]`. -/
def exSecondOtherNames : DataFrame :=
  ⟨[.str "name", .str "m1", .str "m2"], [.int 0, .int 1],
   [[.str "x", .int 5, .int (-6)], [.str "y", .int 7, .int 8]]⟩

/-- Second table with no `name` column at all (first column is `q`). -/
def exSecondNoName : DataFrame :=
  ⟨[.str "q", .str "m1", .str "m2"], [.int 0, .int 1],
   [[.int 9, .int 5, .int (-6)], [.int 8, .int 7, .int 8]]⟩

/-- A table whose `name` column has length 4 — one more subplot than the
hardcoded 3-element title list. -/
def exFourParams : DataFrame :=
  ⟨[.str "name", .str "m"], [.int 0, .int 1, .int 2, .int 3],
   [[.str "a", .int 1], [.str "b", .int (-2)], [.str "c", .int 3],
    [.str "d", .int 4]]⟩

/-! ### Helper lemmas -/

theorem exceptMap_ok {α β : Type} (f : α → Except Err β) :
    ∀ (s : List α) (l : List β), exceptMap f s = Except.ok l →
      l.length = s.length ∧
      ∀ (i : Nat) (da : α) (db : β), i < s.length →
        f (s.getD i da) = Except.ok (l.getD i db)
  | [], l, h => by
    simp only [exceptMap, Except.ok.injEq] at h
    subst h
    exact ⟨rfl, fun i _ _ hi => absurd hi (by simp)⟩
  | a :: as, l, h => by
    simp only [exceptMap] at h
    cases hfa : f a with
    | error e => rw [hfa] at h; exact absurd h (by simp)
    | ok b =>
      rw [hfa] at h
      cases hrec : exceptMap f as with
      | error e => rw [hrec] at h; exact absurd h (by simp)
      | ok bs =>
        rw [hrec] at h
        simp only [Except.ok.injEq] at h
        subst h
        obtain ⟨hlen, hpt⟩ := exceptMap_ok f as bs hrec
        refine ⟨by simp [hlen], ?_⟩
        intro i da db hi
        cases i with
        | zero => simpa using hfa
        | succ i =>
          simpa using hpt i da db (by simpa using hi)

theorem absLastN_ok_cols {n : Nat} {df d : DataFrame}
    (h : absLastN n df = Except.ok d) :
    d.cols = df.cols ∧ d.idx = df.idx ∧ d.rows.length = df.rows.length := by
  simp only [absLastN] at h
  cases hm : exceptMap (fun r =>
      match exceptMap absVal (r.drop (df.cols.length - n)) with
      | .error e => .error e
      | .ok tail => .ok (r.take (df.cols.length - n) ++ tail)) df.rows with
  | error e => rw [hm] at h; exact absurd h (by simp)
  | ok rows =>
    rw [hm] at h
    simp only [Except.ok.injEq] at h
    subst h
    exact ⟨rfl, rfl, (exceptMap_ok _ _ _ hm).1⟩

theorem restOfBody_ok_cols {nm : List Val} {n : Nat} {d r : DataFrame}
    (h : restOfBody nm n d = Except.ok r) :
    r.cols = Val.str "index" :: nm := by
  simp only [restOfBody, setColumns] at h
  by_cases hl : nm.length = (takeLastRows n (transposeDF d)).cols.length
  · rw [if_pos hl] at h
    simp only [Except.ok.injEq] at h
    subst h
    rfl
  · rw [if_neg hl] at h
    exact absurd h (by simp)

theorem processTable_ok_cols {nm : List Val} {n : Nat} {df r : DataFrame}
    (h : processTable nm n df = Except.ok r) :
    r.cols = Val.str "index" :: nm := by
  simp only [processTable] at h
  cases ha : absLastN n df with
  | error e => rw [ha] at h; exact absurd h (by simp)
  | ok d => rw [ha] at h; exact restOfBody_ok_cols h

theorem processTable_ok_shape {nm : List Val} {n : Nat} {df r : DataFrame}
    (h : processTable nm n df = Except.ok r) :
    r.cols.length = nm.length + 1 ∧
    r.rows.length = min n df.cols.length := by
  simp only [processTable] at h
  cases ha : absLastN n df with
  | error e => rw [ha] at h; exact absurd h (by simp)
  | ok d =>
    rw [ha] at h
    obtain ⟨hcols, _, _⟩ := absLastN_ok_cols ha
    simp only [restOfBody, setColumns] at h
    by_cases hl : nm.length = (takeLastRows n (transposeDF d)).cols.length
    · rw [if_pos hl] at h
      simp only [Except.ok.injEq] at h
      subst h
      constructor
      · simp [resetIndex]
      · simp only [resetIndex, takeLastRows, transposeDF, List.length_map,
          List.length_zip, List.length_drop, List.length_range, hcols]
        omega
    · rw [if_neg hl] at h
      exact absurd h (by simp)

theorem bodyHeap_frame (nm : List Val) (n : Nat) (h : Heap) (i : Nat) :
    h.objs.length ≤ (bodyHeap nm n h i).1.objs.length ∧
    ∀ j, j < h.objs.length →
      (bodyHeap nm n h i).1.objs.getD j default = h.objs.getD j default := by
  unfold bodyHeap heapAlloc heapRead heapWrite
  dsimp only
  split
  · refine ⟨by simp, ?_⟩
    intro j hj
    simp only [List.getD_eq_getElem?_getD]
    rw [List.getElem?_append_left hj]
  · refine ⟨by simp, ?_⟩
    intro j hj
    simp only [List.getD_eq_getElem?_getD]
    rw [List.getElem?_set_ne (by omega), List.getElem?_append_left hj]

theorem runHeapLoop_frame (nm : List Val) (n : Nat) :
    ∀ (is : List Nat) (h : Heap) (j : Nat), j < h.objs.length →
      (runHeapLoop nm n is h).1.objs.getD j default = h.objs.getD j default
  | [], _, _, _ => rfl
  | i :: is, h, j, hj => by
    unfold runHeapLoop
    obtain ⟨hlen, hpt⟩ := bodyHeap_frame nm n h i
    have hfix := hpt j hj
    split
    · rename_i h' e heq
      rw [heq] at hfix
      exact hfix
    · rename_i h' u heq
      rw [heq] at hfix hlen
      replace hfix : h'.objs.getD j default = h.objs.getD j default := hfix
      replace hlen : h.objs.length ≤ h'.objs.length := hlen
      rw [runHeapLoop_frame nm n is h' j (by omega)]
      exact hfix

theorem getD_take_append_left {α : Type} {r tail : List α} {keep j : Nat}
    (d : α) (hk : keep ≤ r.length) (hj : j < keep) :
    (r.take keep ++ tail).getD j d = r.getD j d := by
  simp only [List.getD_eq_getElem?_getD]
  rw [List.getElem?_append_left (by rw [List.length_take]; omega),
    List.getElem?_take_of_lt hj]

theorem getD_take_append_right {α : Type} {r tail : List α} {keep j : Nat}
    (d : α) (hk : keep ≤ r.length) (hj : keep ≤ j) :
    (r.take keep ++ tail).getD j d = tail.getD (j - keep) d := by
  simp only [List.getD_eq_getElem?_getD]
  rw [List.getElem?_append_right (by rw [List.length_take]; omega),
    List.length_take, Nat.min_eq_left hk]

theorem getD_drop {α : Type} (r : List α) (k j : Nat) (d : α) :
    (r.drop k).getD j d = r.getD (k + j) d := by
  simp only [List.getD_eq_getElem?_getD, List.getElem?_drop]

theorem absLastN_ok_cells {n : Nat} {df d : DataFrame} (hwf : WF df)
    (h : absLastN n df = Except.ok d) :
    (∀ i j, i < df.rows.length → j < df.cols.length - n →
      cell d i j = cell df i j) ∧
    (∀ i j, i < df.rows.length → df.cols.length - n ≤ j →
      j < df.cols.length → absVal (cell df i j) = Except.ok (cell d i j)) := by
  simp only [absLastN] at h
  set keep := df.cols.length - n with hkeep
  cases hm : exceptMap (fun r =>
      match exceptMap absVal (r.drop keep) with
      | .error e => .error e
      | .ok tail => .ok (r.take keep ++ tail)) df.rows with
  | error e => rw [hm] at h; exact absurd h (by simp)
  | ok rows =>
    rw [hm] at h
    simp only [Except.ok.injEq] at h
    subst h
    obtain ⟨hlen, hpt⟩ := exceptMap_ok _ _ _ hm
    have main : ∀ i, i < df.rows.length →
        ∃ tail, exceptMap absVal ((df.rows.getD i []).drop keep) = Except.ok tail ∧
          rows.getD i [] = (df.rows.getD i []).take keep ++ tail := by
      intro i hi
      have hfi := hpt i [] [] hi
      cases hte : exceptMap absVal ((df.rows.getD i []).drop keep) with
      | error e => rw [hte] at hfi; exact absurd hfi (by simp)
      | ok tail =>
        rw [hte] at hfi
        simp only [Except.ok.injEq] at hfi
        exact ⟨tail, rfl, hfi.symm⟩
    have hrlen : ∀ i, i < df.rows.length →
        (df.rows.getD i []).length = df.cols.length := by
      intro i hi
      have : df.rows.getD i [] ∈ df.rows := by
        rw [List.getD_eq_getElem _ _ hi]
        exact List.getElem_mem hi
      exact hwf.2 _ this
    have hkle : ∀ i, i < df.rows.length →
        keep ≤ (df.rows.getD i []).length := by
      intro i hi
      rw [hrlen i hi]
      omega
    constructor
    · intro i j hi hj
      obtain ⟨tail, _, hrow⟩ := main i hi
      simp only [cell]
      rw [hrow, getD_take_append_left _ (hkle i hi) hj]
    · intro i j hi hj1 hj2
      obtain ⟨tail, htail, hrow⟩ := main i hi
      obtain ⟨htlen, htpt⟩ := exceptMap_ok _ _ _ htail
      have hjk : j - keep < ((df.rows.getD i []).drop keep).length := by
        rw [List.length_drop, hrlen i hi]
        omega
      have happ := htpt (j - keep) (Val.int 0) (Val.int 0) hjk
      have hsrc : ((df.rows.getD i []).drop keep).getD (j - keep) (Val.int 0)
          = (df.rows.getD i []).getD j (Val.int 0) := by
        rw [getD_drop]
        congr 1
        omega
      rw [hsrc] at happ
      simp only [cell]
      rw [hrow, getD_take_append_right _ (hkle i hi) hj1]
      exact happ

/-! ### Claim theorems -/

/-- Claim C1, counterexample: with two input tables whose `name` columns
differ, the reshaped table at position 1 is relabeled with the FIRST
table's names (`a`, `b`), not position 1's own names (`x`, `y`) — the
claim as stated is false. -/
theorem C1_cex_second_table_names_ignored :
    (reshapedTables (SensInput.many [exFirst, exSecondOtherNames])).map
        (fun l => (l.getD 1 default).cols)
      = Except.ok [Val.str "index", Val.str "a", Val.str "b"]
    ∧ getCol exSecondOtherNames (Val.str "name")
      = Except.ok [Val.str "x", Val.str "y"]
    ∧ [Val.str "index", Val.str "a", Val.str "b"]
      ≠ [Val.str "index", Val.str "x", Val.str "y"] :=
  ⟨rfl, rfl, by decide⟩

/-- Claim C1, amended: every reshaped table's columns are relabeled using
the FIRST table's `name` values (in the order they appear there), with
the `index` column prepended by `reset_index` — not each table's own
`name` column. -/
theorem C1_columns_from_first_table
    (input : SensInput) (t0 : DataFrame) (rest : List DataFrame)
    (nm : List Val) (l : List DataFrame)
    (hnorm : normalize input = t0 :: rest)
    (hname : getCol t0 (Val.str "name") = Except.ok nm)
    (hres : reshapedTables input = Except.ok l) :
    ∀ i, i < l.length → (l.getD i default).cols = Val.str "index" :: nm := by
  intro i hi
  simp only [reshapedTables, hnorm, hname] at hres
  obtain ⟨hlen, hpt⟩ := exceptMap_ok _ _ _ hres
  exact processTable_ok_cols (hpt i default default (by omega))

/-- Claim C1, witness: the amended theorem applied to the single-table
scenario input. -/
theorem C1_columns_from_first_table_witness :
    normalize (SensInput.single exScenario) = exScenario :: []
    ∧ ([exScenarioReshaped].getD 0 default).cols
      = Val.str "index" :: [Val.str "a", Val.str "b", Val.str "c"] :=
  ⟨rfl, C1_columns_from_first_table (SensInput.single exScenario)
    exScenario [] [Val.str "a", Val.str "b", Val.str "c"]
    [exScenarioReshaped] rfl rfl rfl 0 (by decide)⟩

/-- Claim C2, counterexample: for the single-table scenario input with
`P = 3` names, the reshaped table has 4 columns (the `index` column plus
the 3 parameter columns), not exactly `P = 3`. -/
theorem C2_cex_reshaped_has_p_plus_one_columns :
    getCol exScenario (Val.str "name")
      = Except.ok [Val.str "a", Val.str "b", Val.str "c"]
    ∧ (reshapedTables (SensInput.single exScenario)).map
        (fun l => (l.getD 0 default).cols.length) = Except.ok 4
    ∧ (4 : Nat) ≠ 3 :=
  ⟨rfl, rfl, by decide⟩

/-- Claim C2, amended: for every valid input sequence of `N` tables whose
first table's `name` column has length `P`, each reshaped table has
exactly `P + 1` columns — the `P` parameter columns plus the leading
`index` column — and exactly `N` rows (for tables with at least `N`
columns, as validity requires). -/
theorem C2_reshaped_shape
    (input : SensInput) (t0 : DataFrame) (rest : List DataFrame)
    (nm : List Val) (l : List DataFrame)
    (hnorm : normalize input = t0 :: rest)
    (hname : getCol t0 (Val.str "name") = Except.ok nm)
    (hres : reshapedTables input = Except.ok l) :
    l.length = (normalize input).length ∧
    ∀ i, i < l.length →
      (normalize input).length ≤ ((normalize input).getD i default).cols.length →
      (l.getD i default).cols.length = nm.length + 1 ∧
      (l.getD i default).rows.length = (normalize input).length := by
  simp only [reshapedTables, hnorm, hname] at hres
  obtain ⟨hlen, hpt⟩ := exceptMap_ok _ _ _ hres
  rw [hnorm]
  refine ⟨hlen, ?_⟩
  intro i hi hcols
  obtain ⟨hc, hr⟩ := processTable_ok_shape (hpt i default default (by omega))
  exact ⟨hc, by rw [hr, Nat.min_eq_left hcols]⟩

/-- Claim C2, witness: the amended theorem applied to the single-table
scenario input: 4 = 3 + 1 columns and 1 row. -/
theorem C2_reshaped_shape_witness :
    (1 : Nat) ≤ exScenario.cols.length
    ∧ ([exScenarioReshaped].getD 0 default).cols.length = 4
    ∧ ([exScenarioReshaped].getD 0 default).rows.length = 1 :=
  ⟨by decide,
   ((C2_reshaped_shape (SensInput.single exScenario) exScenario []
      [Val.str "a", Val.str "b", Val.str "c"] [exScenarioReshaped]
      rfl rfl rfl).2 0 (by decide) (by decide)).1,
   ((C2_reshaped_shape (SensInput.single exScenario) exScenario []
      [Val.str "a", Val.str "b", Val.str "c"] [exScenarioReshaped]
      rfl rfl rfl).2 0 (by decide) (by decide)).2⟩

/-- Claim C3 (code bug): with a `name` column of length 4 the code does
NOT raise any error — the run completes, returns `"Figures saved."` and
writes the file — while `zip` with the hardcoded 3-element title list
silently titles only 3 of the 4 subplots. -/
theorem C3_four_params_runs_without_error :
    getCol exFourParams (Val.str "name")
      = Except.ok [Val.str "a", Val.str "b", Val.str "c", Val.str "d"]
    ∧ moment_sensitivity_plot (SensInput.single exFourParams)
      = (Except.ok "Figures saved.", ["sensitivity_plot1.png"])
    ∧ assignedTitles 4 = ["intersection", "beta1", "beta2"]
    ∧ (assignedTitles 4).length ≠ 4 :=
  ⟨rfl, rfl, rfl, by decide⟩

/-- Claim C4, counterexample: for the scenario input the reshaped table's
column labels are `[index, a, b, c]` — four columns, not "3 columns
labeled a, b, c" — because `reset_index` prepends the `index` column. -/
theorem C4_cex_reshaped_has_index_column :
    reshapedTables (SensInput.single exScenario)
      = Except.ok [exScenarioReshaped]
    ∧ exScenarioReshaped.cols ≠ [Val.str "a", Val.str "b", Val.str "c"]
    ∧ exScenarioReshaped.cols.length ≠ 3 :=
  ⟨rfl, by decide, by decide⟩

/-- Claim C4, amended: for the single-table scenario input the reshaped
table has exactly 1 row; its columns are the leading `index` column
followed by the parameter columns `a`, `b`, `c`; its data row holds the
original column label `m` and the absolute values `[1, 2, 3]`; and the
output file `sensitivity_plot1.png` is created. -/
theorem C4_scenario :
    moment_sensitivity_plot (SensInput.single exScenario)
      = (Except.ok "Figures saved.", ["sensitivity_plot1.png"])
    ∧ reshapedTables (SensInput.single exScenario)
      = Except.ok [exScenarioReshaped]
    ∧ exScenarioReshaped.rows.length = 1
    ∧ exScenarioReshaped.cols
      = [Val.str "index", Val.str "a", Val.str "b", Val.str "c"]
    ∧ exScenarioReshaped.rows
      = [[Val.str "m", Val.int 1, Val.int 2, Val.int 3]] :=
  ⟨rfl, rfl, rfl, rfl, rfl⟩

/-- Claim C5: the render operation never mutates a caller-supplied table:
in the heap model, after the whole call every address holding a caller
table still holds exactly the table the caller passed (the in-place abs
assignment writes only through the fresh address of the deep copy). -/
theorem C5_caller_tables_unchanged
    (tables : List DataFrame) (j : Nat) (hj : j < tables.length) :
    heapRead (momentSensitivityPlotHeap tables).1 j = tables.getD j default := by
  unfold momentSensitivityPlotHeap heapRead
  match tables, hj with
  | t0 :: ts, hj =>
    dsimp only
    split
    · rfl
    · exact runHeapLoop_frame _ _ _ ⟨t0 :: ts⟩ j hj

/-- Claim C5, witness: the no-mutation theorem applied to the scenario
input at position 0. -/
theorem C5_caller_tables_unchanged_witness :
    0 < [exScenario].length
    ∧ heapRead (momentSensitivityPlotHeap [exScenario]).1 0
      = [exScenario].getD 0 default :=
  ⟨by decide, C5_caller_tables_unchanged [exScenario] 0 (by decide)⟩

/-- Claim C6: on a rectangular table, the abs step leaves the column
labels, the index, the row count and every cell in a column before the
last `n` untouched, and replaces each cell in the last `n` columns by its
absolute value. -/
theorem C6_abs_touches_only_last_n_columns
    (n : Nat) (df d : DataFrame) (hwf : WF df)
    (h : absLastN n df = Except.ok d) :
    d.cols = df.cols ∧ d.idx = df.idx ∧ d.rows.length = df.rows.length ∧
    (∀ i j, i < df.rows.length → j < df.cols.length - n →
      cell d i j = cell df i j) ∧
    (∀ i j, i < df.rows.length → df.cols.length - n ≤ j →
      j < df.cols.length → absVal (cell df i j) = Except.ok (cell d i j)) := by
  obtain ⟨h1, h2, h3⟩ := absLastN_ok_cols h
  obtain ⟨h4, h5⟩ := absLastN_ok_cells hwf h
  exact ⟨h1, h2, h3, h4, h5⟩

/-- Claim C6, witness: the abs-step theorem applied to the scenario
table with `n = 1`: the `name` cell at row 0 is untouched and the
measure cell at row 0 is its absolute value. -/
theorem C6_abs_touches_only_last_n_columns_witness :
    WF exScenario
    ∧ absLastN 1 exScenario = Except.ok exScenarioAbs
    ∧ cell exScenarioAbs 0 0 = cell exScenario 0 0
    ∧ absVal (cell exScenario 0 1) = Except.ok (cell exScenarioAbs 0 1) :=
  ⟨by decide, rfl,
   (C6_abs_touches_only_last_n_columns 1 exScenario exScenarioAbs
      (by decide) rfl).2.2.2.1 0 0 (by decide) (by decide),
   (C6_abs_touches_only_last_n_columns 1 exScenario exScenarioAbs
      (by decide) rfl).2.2.2.2 0 1 (by decide) (by decide) (by decide)⟩

/-- Claim C7, counterexample: when a table other than the first lacks the
`name` column, no missing-key error is raised — the run completes and
writes both files, because only the first table's `name` column is ever
read. -/
theorem C7_cex_nonfirst_missing_name_no_error :
    getCol exSecondNoName (Val.str "name") = Except.error Err.keyError
    ∧ moment_sensitivity_plot (SensInput.many [exFirst, exSecondNoName])
      = (Except.ok "Figures saved.",
         ["sensitivity_plot1.png", "sensitivity_plot2.png"]) :=
  ⟨rfl, rfl⟩

/-- Claim C7, amended: when the FIRST table lacks a `name` column, the
render operation fails with a missing-key error before writing any file;
the `name` column of later tables is never read. -/
theorem C7_first_table_missing_name_raises
    (t0 : DataFrame) (rest : List DataFrame)
    (h : getCol t0 (Val.str "name") = Except.error Err.keyError) :
    moment_sensitivity_plot (SensInput.many (t0 :: rest))
      = (Except.error Err.keyError, [])
    ∧ reshapedTables (SensInput.many (t0 :: rest))
      = Except.error Err.keyError := by
  constructor
  · simp only [moment_sensitivity_plot, normalize, h]
  · simp only [reshapedTables, normalize, h]

/-- Claim C7, witness: the amended theorem applied to a one-table input
whose table has no `name` column. -/
theorem C7_first_table_missing_name_raises_witness :
    getCol exSecondNoName (Val.str "name") = Except.error Err.keyError
    ∧ moment_sensitivity_plot (SensInput.many [exSecondNoName])
      = (Except.error Err.keyError, []) :=
  ⟨rfl, (C7_first_table_missing_name_raises exSecondNoName [] rfl).1⟩

/-- Claim C8: a single table is treated exactly as the one-element
sequence containing it — the run and the reshaped tables coincide. -/
theorem C8_single_table_is_singleton_sequence (df : DataFrame) :
    moment_sensitivity_plot (SensInput.single df)
      = moment_sensitivity_plot (SensInput.many [df])
    ∧ reshapedTables (SensInput.single df)
      = reshapedTables (SensInput.many [df]) :=
  ⟨rfl, rfl⟩

/-- Claim C9: the transform is deterministic — identical inputs yield
identical reshaped tables and identical run results (files included). -/
theorem C9_deterministic (s1 s2 : SensInput) (h : s1 = s2) :
    reshapedTables s1 = reshapedTables s2
    ∧ moment_sensitivity_plot s1 = moment_sensitivity_plot s2 := by
  subst h
  exact ⟨rfl, rfl⟩

/-- Claim C9, witness: determinism applied to the scenario input. -/
theorem C9_deterministic_witness :
    SensInput.single exScenario = SensInput.single exScenario
    ∧ reshapedTables (SensInput.single exScenario)
      = reshapedTables (SensInput.single exScenario) :=
  ⟨rfl, (C9_deterministic (SensInput.single exScenario)
    (SensInput.single exScenario) rfl).1⟩

/-- Claim C10: calling the render operation on an empty list fails with
an index error (raised while extracting the first table's `name` column
on line 21) and writes no file at all. -/
theorem C10_empty_list_index_error_no_files :
    moment_sensitivity_plot (SensInput.many [])
      = (Except.error Err.indexError, []) := rfl

end SensitivityPlot
